import Mathlib

/-!
Shallow embedding of the CoinDCX futures bot (src/app.py, src/worker.py).

Prices, quantities and volumes are modelled as rationals (`ℚ`); the Python
code uses floats, but every claim under study concerns comparisons,
floor divisions and additions whose intent is exact arithmetic.
Candles arrive from the exchange as arrays `[openTime, open, high, low,
close, volume]`; we model them as a structure with those fields.
-/

namespace Bot

/-- One OHLCV candle (`c[0]..c[5]` in the Python code). -/
structure Candle where
  openTime : ℚ
  openPrice : ℚ
  high : ℚ
  low : ℚ
  close : ℚ
  volume : ℚ
  deriving DecidableEq, Repr

/-- Supertrend colour, the strings `"green"` / `"red"` in the source. -/
inductive STColor where
  | green
  | red
  deriving DecidableEq, Repr

/-- Python `l[-n:]`: the last `n` elements (the whole list when shorter). -/
def lastN (n : ℕ) (l : List α) : List α := l.drop (l.length - n)

/-- `compute_vwap` (src/app.py:230): sum of typical-price·volume over sum of
volume; `None` when the cumulative volume is zero. -/
def compute_vwap (candles : List Candle) : Option ℚ :=
  let totalTpv := (candles.map (fun c => ((c.high + c.low + c.close) / 3) * c.volume)).sum
  let totalVol := (candles.map (fun c => c.volume)).sum
  if totalVol = 0 then none else some (totalTpv / totalVol)

/-- The true range of candle `b` given previous candle `a`
(src/app.py:244-249). -/
def trueRange (a b : Candle) : ℚ :=
  max (b.high - b.low) (max |b.high - a.close| |b.low - a.close|)

/-- The list `trs` of `compute_atr` (src/app.py:243-249): true ranges of
consecutive candle pairs; length is one less than the candle count. -/
def trueRanges : List Candle → List ℚ
  | [] => []
  | [_] => []
  | a :: b :: rest => trueRange a b :: trueRanges (b :: rest)

/-- `compute_atr` (src/app.py:242-257): entry `i` is `None` for `i < period`,
otherwise the arithmetic mean of `trs[i-period+1 .. i]`. -/
def compute_atr (candles : List Candle) (period : ℕ) : List (Option ℚ) :=
  let trs := trueRanges candles
  (List.range trs.length).map (fun i =>
    if i < period then none
    else some (((trs.drop (i - period + 1)).take period).sum / (period : ℚ)))

/-- The colour at index `i` of the supertrend loop (src/app.py:263-282).
Index `0`, or a missing `atrs[i-1]`, yields red; otherwise the close is
compared against the bands, falling back to the previous colour. -/
def stColorAt (candles : List Candle) (atrs : List (Option ℚ)) (mult : ℚ) : ℕ → STColor
  | 0 => .red
  | i + 1 =>
    match atrs.get? i with
    | none => .red
    | some none => .red
    | some (some a) =>
      match candles.get? (i + 1) with
      | none => .red
      | some c =>
        let hl2 := (c.high + c.low) / 2
        let ub := hl2 + mult * a
        let lb := hl2 - mult * a
        if c.close > ub then .green
        else if c.close < lb then .red
        else stColorAt candles atrs mult i

/-- `compute_supertrend` (src/app.py:259-282): all red when fewer than
`period+1` candles, otherwise one colour per candle index. -/
def compute_supertrend (candles : List Candle) (period : ℕ) (mult : ℚ) : List STColor :=
  if candles.length < period + 1 then List.replicate candles.length .red
  else (List.range candles.length).map (stColorAt candles (compute_atr candles period) mult)

/-- The spec's `SignalDecision`: no signal, or a directional entry with its
trigger price. -/
inductive SignalDecision where
  | noSignal
  | enterLong (trigger : ℚ)
  | enterShort (trigger : ℚ)
  deriving DecidableEq, Repr

/-- The pure decision rule of `check_strategy_conditions`
(src/app.py:315-352): guards for window size and truthy VWAP/colour data,
then the VWAP/supertrend conditions on `close[-2]`, `close[-3]`.
Note that the Python guard `if not vwap_val` also rejects a VWAP of exactly
zero (float falsiness), and that the VWAP is taken over `candles[-5:]` —
including the final, possibly still-open candle. -/
def evaluateSignal (candles : List Candle) : SignalDecision :=
  if candles.length < 4 then .noSignal
  else
    match compute_vwap (lastN 5 candles) with
    | none => .noSignal
    | some v =>
      if v = 0 then .noSignal
      else
        let stColors := compute_supertrend candles 7 2
        if stColors.isEmpty then .noSignal
        else
          match candles.get? (candles.length - 2), candles.get? (candles.length - 3),
                stColors.get? (candles.length - 2) with
          | some c2, some c3, some col2 =>
            if c3.close > v ∧ c2.close > v ∧ col2 = .green then .enterLong c2.high
            else if c3.close < v ∧ c2.close < v ∧ col2 = .red then .enterShort c2.low
            else .noSignal
          | _, _, _ => .noSignal

/-- Order / position side, the strings `"buy"` / `"sell"` in the source. -/
inductive Side where
  | buy
  | sell
  deriving DecidableEq, Repr

/-- Status of an order reported by the exchange (src/app.py:366-386 reads
`filled`, `cancelled`, `rejected`; anything else — e.g. `open` — is a
no-op for the controller). -/
inductive OrderStatus where
  | opened
  | filled
  | cancelled
  | rejected
  | other
  deriving DecidableEq, Repr

/-- One entry of the exchange's order list (`ExchangeGateway.listOrders`). -/
structure ExchangeOrder where
  id : String
  side : Side
  status : OrderStatus
  pricePerUnit : ℚ
  deriving DecidableEq, Repr

inductive OrderType where
  | stopLimit
  | market
  deriving DecidableEq, Repr

/-- An order submitted through `place_order` (src/app.py:142-160); recorded
as an output so theorems can talk about which orders a transition placed. -/
structure PlacedOrder where
  side : Side
  price : ℚ
  triggerPrice : ℚ
  quantity : ℚ
  orderType : OrderType
  deriving DecidableEq, Repr

/-- The tunables read by the bot logic (`ORDER_SIZE`, `SL_DISTANCE`,
`TSL_STEP`, `BE_PROFIT` in src/app.py:32-35). -/
structure Config where
  orderSize : ℚ
  slDistance : ℚ
  tslStep : ℚ
  beProfit : ℚ
  deriving DecidableEq, Repr

/-- Defaults of src/app.py:32-35. -/
def defaultConfig : Config := ⟨1, 25, 10, 25⟩

/-- The mutable globals of src/app.py:44-53 that make up the controller
state. A `PendingOrder` is present exactly when `pendingOrderId ≠ none`
(every guard in the source tests `pending_order_id`); a `Position` is
present exactly when `inTrade = true` (`BOT_IN_TRADE`). -/
structure BotState where
  botActive : Bool
  inTrade : Bool
  positionSide : Option Side
  entryPrice : Option ℚ
  stopLossPrice : Option ℚ
  pendingOrderId : Option String
  pendingOrderSide : Option Side
  pendingTriggerPrice : Option ℚ
  deriving DecidableEq, Repr

/-- The initial values of the globals (src/app.py:44-53). -/
def initState : BotState :=
  { botActive := true
    inTrade := false
    positionSide := none
    entryPrice := none
    stopLossPrice := none
    pendingOrderId := none
    pendingOrderSide := none
    pendingTriggerPrice := none }

/-- The body of the loop in `check_filled_orders` (src/app.py:366-386) for a
single reported order: on a `filled` match the position is created and the
pending id and side are cleared in the same step (`pending_trigger_price`
is left untouched); on `cancelled`/`rejected` the id and side are cleared. -/
def processOrder (slDistance : ℚ) (st : BotState) (od : ExchangeOrder) : BotState :=
  if st.pendingOrderId = some od.id then
    match od.status with
    | .filled =>
        { st with
          inTrade := true
          positionSide := some od.side
          entryPrice := some od.pricePerUnit
          stopLossPrice := some (if od.side = .buy then od.pricePerUnit - slDistance
                                 else od.pricePerUnit + slDistance)
          pendingOrderId := none
          pendingOrderSide := none }
    | .cancelled => { st with pendingOrderId := none, pendingOrderSide := none }
    | .rejected => { st with pendingOrderId := none, pendingOrderSide := none }
    | _ => st
  else st

/-- `check_filled_orders` (src/app.py:354-386): a no-op without a pending
order id, otherwise the reported order list is scanned for the pending id.
`resp` is the (successful) response of the status poll; a falsy/empty
response returns unchanged. -/
def check_filled_orders (slDistance : ℚ) (st : BotState) (resp : List ExchangeOrder) : BotState :=
  if st.pendingOrderId = none then st
  else if resp = [] then st
  else resp.foldl (processOrder slDistance) st

/-- `force_close_position` (src/app.py:111-140). `latestPrice` is the result
of `get_latest_price` (`none` when candles cannot be fetched; src/app.py:
180-184). Returns the new state, the market orders placed, and the ids of
the cancel requests issued. Note the Python guard `if last_price:` also
skips the close order when the price is exactly `0` (float falsiness), and
that the trade-state fields are cleared unconditionally at the end. -/
def force_close_position (cfg : Config) (latestPrice : Option ℚ) (st : BotState) :
    BotState × List PlacedOrder × List String :=
  let (st1, cancels) :=
    match st.pendingOrderId with
    | some oid =>
        ({ st with
           pendingOrderId := none
           pendingOrderSide := none
           pendingTriggerPrice := none }, [oid])
    | none => (st, [])
  let placed :=
    if st1.inTrade ∧ st1.positionSide ≠ none then
      match latestPrice with
      | some p =>
          if p ≠ 0 then
            [⟨if st1.positionSide = some .buy then Side.sell else Side.buy,
              p, p, cfg.orderSize, .market⟩]
          else []
      | none => []
    else []
  ({ st1 with
     inTrade := false
     positionSide := none
     entryPrice := none
     stopLossPrice := none }, placed, cancels)

/-- The Stop Engine: the stop-loss update of `manage_position`
(src/app.py:412-438). Breakeven when `profit ≥ beProfit` and the stop is on
the losing side of entry; stepwise trail when `profit > beProfit`, adopted
only when strictly more favourable than the current stop. `⌊·⌋` models
Python's float floor-division `//` composed with `int(...)`. -/
def updateStop (cfg : Config) (side : Side) (entry sl latest : ℚ) : ℚ :=
  let profit := if side = .buy then latest - entry else entry - latest
  let sl1 :=
    if profit ≥ cfg.beProfit then
      if side = .buy ∧ sl < entry then entry
      else if side = .sell ∧ sl > entry then entry
      else sl
    else sl
  if profit > cfg.beProfit then
    let steps : ℤ := ⌊(profit - cfg.beProfit) / cfg.tslStep⌋
    if side = .buy then
      let newSl := entry + (steps : ℚ) * cfg.tslStep
      if sl1 < newSl then newSl else sl1
    else
      let newSl := entry - (steps : ℚ) * cfg.tslStep
      if sl1 > newSl then newSl else sl1
  else sl1

/-- `manage_position` (src/app.py:388-461): first `check_filled_orders`,
then — when in a trade — session-end force close, the Stop Engine update,
and the stop-hit market exit (which clears only `pending_order_id` of the
pending fields, src/app.py:444-446). The wildcard row returns unchanged; it
corresponds to states the program never reaches (the position fields are
set whenever `BOT_IN_TRADE` is). -/
def manage_position (cfg : Config) (st0 : BotState) (resp : List ExchangeOrder)
    (inSession : Bool) (latestPrice : Option ℚ) : BotState × List PlacedOrder × List String :=
  let st := check_filled_orders cfg.slDistance st0 resp
  if st.inTrade = false then (st, [], [])
  else if inSession = false then force_close_position cfg latestPrice st
  else
    match latestPrice with
    | none => (st, [], [])
    | some p =>
      if p = 0 then (st, [], [])
      else
        match st.positionSide, st.entryPrice, st.stopLossPrice with
        | some side, some entry, some sl =>
          let sl' := updateStop cfg side entry sl p
          let st1 := { st with stopLossPrice := some sl' }
          if (side = .buy ∧ p ≤ sl') ∨ (side = .sell ∧ p ≥ sl') then
            let exitOrder : PlacedOrder :=
              ⟨if side = .buy then Side.sell else Side.buy, p, p, cfg.orderSize, .market⟩
            let (st2, cancels) :=
              match st1.pendingOrderId with
              | some oid => ({ st1 with pendingOrderId := none }, [oid])
              | none => (st1, [])
            ({ st2 with
               inTrade := false
               positionSide := none
               entryPrice := none
               stopLossPrice := none }, [exitOrder], cancels)
          else (st1, [], [])
        | _, _, _ => (st, [], [])

/-- `check_strategy_conditions` (src/app.py:287-352). `candles` is the
result of `get_candles` (`none` on fetch error), `placeResp` the order id
when the placement response contains one. Returns the new state, placed
orders and cancels. -/
def check_strategy_conditions (cfg : Config) (st : BotState) (inSession : Bool)
    (candles : Option (List Candle)) (placeResp : Option String) :
    BotState × List PlacedOrder × List String :=
  if st.botActive = false then (st, [], [])
  else if inSession = false then
    match st.pendingOrderId with
    | some oid =>
        ({ st with
           pendingOrderId := none
           pendingOrderSide := none
           pendingTriggerPrice := none }, [], [oid])
    | none => (st, [], [])
  else if st.inTrade then (st, [], [])
  else
    match candles with
    | none => (st, [], [])
    | some cs =>
      match evaluateSignal cs with
      | .noSignal => (st, [], [])
      | .enterLong trig =>
          let placed : List PlacedOrder := [⟨.buy, trig, trig, cfg.orderSize, .stopLimit⟩]
          match placeResp with
          | some oid =>
              ({ st with
                 pendingOrderId := some oid
                 pendingOrderSide := some .buy
                 pendingTriggerPrice := some trig }, placed, [])
          | none => (st, placed, [])
      | .enterShort trig =>
          let placed : List PlacedOrder := [⟨.sell, trig, trig, cfg.orderSize, .stopLimit⟩]
          match placeResp with
          | some oid =>
              ({ st with
                 pendingOrderId := some oid
                 pendingOrderSide := some .sell
                 pendingTriggerPrice := some trig }, placed, [])
          | none => (st, placed, [])

/-! ### Session gate (src/app.py:189-225)

Times of day are minutes since midnight (`0 ≤ m < 1440`); `datetime.time`
objects built from `(hour, minute)` compare exactly like these minute
counts. -/

/-- `ist_time_to_utc_time` (src/app.py:189-195): subtract 5h30m, wrapping
around midnight (the `datetime` subtraction drops the day component when
only hour and minute are read back). -/
def ist_time_to_utc_time (m : ℕ) : ℕ := (m + 1440 - 330) % 1440

/-- `is_in_trading_session` (src/app.py:197-214): convert the configured
IST start/end to UTC, then test the (possibly midnight-crossing) window
against the current UTC time of day. -/
def is_in_trading_session (startIst endIst nowUtc : ℕ) : Bool :=
  let s := ist_time_to_utc_time startIst
  let e := ist_time_to_utc_time endIst
  if e < s then decide (nowUtc ≥ s) || decide (nowUtc < e)
  else decide (s ≤ nowUtc) && decide (nowUtc < e)

/-- `session_just_ended` (src/app.py:216-225): given the stored
`_session_was_active` flag and the current membership, report the
true→false edge and the updated flag. -/
def session_just_ended (wasActive nowIn : Bool) : Bool × Bool :=
  (wasActive && !nowIn, nowIn)

/-- `session_just_ended` iterated over a run of per-tick memberships,
starting from a given `_session_was_active` value (initially `false`,
src/app.py:56): the list of values it returns, tick by tick. -/
def justEndedSeq (wasActive : Bool) : List Bool → List Bool
  | [] => []
  | m :: ms => (session_just_ended wasActive m).1 :: justEndedSeq m ms

/-! ### Driver loop (src/worker.py)

`worker.py` binds `BOT_ACTIVE`, `BOT_IN_TRADE` and `pending_order_id` with
`from app import ...` (src/worker.py:5-15).  A `from`-import copies the
*values* the names hold at import time into the worker module; when app.py
later rebinds its globals (`global BOT_IN_TRADE; BOT_IN_TRADE = True`),
the worker's names keep the imported values.  The loop in `main`
(src/worker.py:26-52) therefore branches on these frozen snapshots, not on
the live controller state. -/

/-- Import-time snapshot of `BOT_ACTIVE` (src/app.py:44). -/
def workerSnapBotActive : Bool := true

/-- Import-time snapshot of `BOT_IN_TRADE` (src/app.py:45). -/
def workerSnapInTrade : Bool := false

/-- Import-time snapshot of `pending_order_id` (src/app.py:51). -/
def workerSnapPendingId : Option String := none

/-- Which calls one iteration of `main`'s loop performs
(src/worker.py:26-52). -/
structure WorkerTickResult where
  ranForceClose : Bool
  ranStrategy : Bool
  ranFillCheck : Bool
  ranManage : Bool
  newLastCheck : ℕ
  deriving DecidableEq, Repr

/-- One iteration of the worker loop (src/worker.py:26-52). `appSt` is the
live state of app.py's globals at the start of the iteration; `justEnded`
the result of `session_just_ended()`; `now` / `lastCheck` the wall clock
and `last_condition_check`. The branch on line 43 reads the module-level
names `BOT_IN_TRADE` and `pending_order_id`, i.e. the import-time
snapshots — not `appSt`. -/
def workerTick (appSt : BotState) (justEnded : Bool) (now lastCheck : ℕ) : WorkerTickResult :=
  if workerSnapBotActive = false then
    { ranForceClose := justEnded, ranStrategy := false, ranFillCheck := false,
      ranManage := false, newLastCheck := lastCheck }
  else
    let _ := appSt
    if workerSnapInTrade = false ∧ workerSnapPendingId = none then
      if now - lastCheck ≥ 60 then
        { ranForceClose := justEnded, ranStrategy := true, ranFillCheck := false,
          ranManage := false, newLastCheck := now }
      else
        { ranForceClose := justEnded, ranStrategy := false, ranFillCheck := false,
          ranManage := false, newLastCheck := lastCheck }
    else
      { ranForceClose := justEnded, ranStrategy := false, ranFillCheck := true,
        ranManage := true, newLastCheck := lastCheck }

/-! ### The fatal retry-exhaustion path (src/app.py:91-140)

`safe_request` retries a failed HTTP call `MAX_ERROR_RETRIES` times; when
every attempt fails it calls `force_close_position()` and then
`sys.exit(1)` (src/app.py:101-104).  `force_close_position` with a pending
order calls `cancel_order`, which goes through `safe_request` again — and
the pending id is cleared only *after* `cancel_order` returns
(src/app.py:119-123).  Under a network where every request fails, the
nested `safe_request` therefore re-enters `force_close_position` with the
pending order still present, before any `sys.exit` is reached.  We model
this recursion with explicit fuel: `none` as the returned state means
control never came back to the caller (an inner `sys.exit`, or recursion
still running when the fuel ends).  `get_latest_price` is *not* routed
through `safe_request` (src/app.py:162-184 has its own try/except), so
under the all-failing network it returns `None` and the market close order
is skipped. -/

/-- Run `force_close_position` under an all-failing network with the given
fuel. Returns the number of entries into `force_close_position` (this one
included), whether `sys.exit(1)` was executed, and the state on normal
return (`none` when control never returns). -/
def forceCloseAllFail : ℕ → BotState → ℕ × Bool × Option BotState
  | 0, _ => (0, false, none)
  | fuel + 1, st =>
    match st.pendingOrderId with
    | some _ =>
        -- cancel_order → safe_request: every attempt fails, so safe_request
        -- runs force_close_position again (pending id still set), then would
        -- sys.exit; control never returns here.
        let (n, halted, ret) := forceCloseAllFail fuel st
        match ret with
        | some _ => (1 + n, true, none)
        | none => (1 + n, halted, none)
    | none =>
        -- no pending order: get_latest_price() is None under the failing
        -- network, so no close order is placed; the state is cleared and
        -- force_close_position returns normally.
        (1, false, some ((force_close_position defaultConfig none st).1))

/-- `safe_request` with every attempt failing: the flatten-then-exit tail
(src/app.py:101-104). Returns how many times `force_close_position` was
entered and whether `sys.exit(1)` was ever executed within the fuel. -/
def safeRequestAllFail (fuel : ℕ) (st : BotState) : ℕ × Bool :=
  let (n, _halted, ret) := forceCloseAllFail fuel st
  match ret with
  | some _ => (n, true)
  | none => (n, _halted)

/-! ### Concrete states and windows used by witnesses and counterexamples -/

/-- A state with a pending buy order (and its stored trigger) awaiting fill. -/
def stFillDemo : BotState :=
  { initState with
    pendingOrderId := some "A"
    pendingOrderSide := some Side.buy
    pendingTriggerPrice := some 105 }

/-- The exchange reporting that order as filled at 106. -/
def odFilledDemo : ExchangeOrder := ⟨"A", Side.buy, OrderStatus.filled, 106⟩

/-- A state holding only a pending order when the retry budget dies. -/
def stPendingDemo : BotState := { initState with pendingOrderId := some "A" }

/-- A state holding only an open position when the retry budget dies. -/
def stPositionDemo : BotState :=
  { initState with
    inTrade := true
    positionSide := some Side.buy
    entryPrice := some 100
    stopLossPrice := some 75 }

/-- A post-fill state: position open, pending id and side cleared, but the
stale `pending_trigger_price` from the filled entry order still stored. -/
def stStaleTrigDemo : BotState :=
  { initState with
    inTrade := true
    positionSide := some Side.buy
    entryPrice := some 100
    stopLossPrice := some 75
    pendingTriggerPrice := some 112 }

/-! ### Stop Engine lemmas -/

/-- For a long position a single Stop Engine update never lowers the stop:
every adoption site in src/app.py:418-433 is guarded by
`stop_loss_price < candidate`. -/
theorem updateStop_buy_ge (cfg : Config) (entry sl p : ℚ) :
    sl ≤ updateStop cfg .buy entry sl p := by
  unfold updateStop
  dsimp only
  split_ifs <;> simp_all <;> linarith

/-- For a short position a single Stop Engine update never raises the stop
(src/app.py:423-438). -/
theorem updateStop_sell_le (cfg : Config) (entry sl p : ℚ) :
    updateStop cfg .sell entry sl p ≤ sl := by
  unfold updateStop
  dsimp only
  split_ifs <;> simp_all <;> linarith

/-- A `scanl` of a step that never decreases its accumulator is a
non-decreasing sequence. -/
theorem chain_scanl_of_step_le (f : ℚ → ℚ → ℚ) (hf : ∀ s p, s ≤ f s p) :
    ∀ (prices : List ℚ) (sl0 : ℚ), List.Chain' (· ≤ ·) (prices.scanl f sl0)
  | [], _ => by simp
  | p :: ps, sl0 => by
    rw [List.scanl_cons]
    refine List.chain'_cons'.mpr ⟨?_, chain_scanl_of_step_le f hf ps (f sl0 p)⟩
    intro b hb
    cases ps <;> simp [List.scanl] at hb <;> exact hb ▸ hf sl0 p

/-- A `scanl` of a step that never increases its accumulator is a
non-increasing sequence. -/
theorem chain_scanl_of_step_ge (f : ℚ → ℚ → ℚ) (hf : ∀ s p, f s p ≤ s) :
    ∀ (prices : List ℚ) (sl0 : ℚ), List.Chain' (fun a b => b ≤ a) (prices.scanl f sl0)
  | [], _ => by simp
  | p :: ps, sl0 => by
    rw [List.scanl_cons]
    refine List.chain'_cons'.mpr ⟨?_, chain_scanl_of_step_ge f hf ps (f sl0 p)⟩
    intro b hb
    cases ps <;> simp [List.scanl] at hb <;> exact hb ▸ hf sl0 p

/-- Claim C3: the stop-loss price is a ratchet. For every configuration,
entry price, starting stop and sequence of Stop Engine updates (one latest
price per update, src/app.py:412-438), the sequence of stop values is
non-decreasing for a long position and non-increasing for a short one. -/
theorem C3_stop_ratchet (cfg : Config) (entry sl0 : ℚ) (prices : List ℚ) :
    List.Chain' (· ≤ ·) (prices.scanl (fun s p => updateStop cfg .buy entry s p) sl0) ∧
    List.Chain' (fun a b => b ≤ a)
      (prices.scanl (fun s p => updateStop cfg .sell entry s p) sl0) :=
  ⟨chain_scanl_of_step_le _ (fun s p => updateStop_buy_ge cfg entry s p) prices sl0,
   chain_scanl_of_step_ge _ (fun s p => updateStop_sell_le cfg entry s p) prices sl0⟩

/-- Claim C6, counterexample: with entry 100, breakeven 25 and trail step 10
(the defaults), a long position at profit 45 (latest price 145) trails the
stop to `entry + 2·10 = 120` — `steps = ⌊(45−25)/10⌋ = 2` — not to 110 as
the claim's sequence states, even starting from the most favourable stop
100 the claimed sequence allows. -/
theorem C6_counterexample :
    ([120, 130, 145] : List ℚ).scanl
        (fun s p => updateStop defaultConfig .buy 100 s p) 100 = [100, 100, 100, 120] ∧
    (120 : ℚ) ≠ 110 := by
  refine ⟨?_, by norm_num⟩
  norm_num [List.scanl, updateStop, defaultConfig]

/-- Claim C6 (amended): from the initial stop 75 (entry 100 minus the
default stop distance 25), the profit sequence 20, 30, 45 (prices 120, 130,
145) yields the stop sequence 75 (unchanged), 100 (breakeven), 120 — and
once the stop has reached 100 no later update moves it below 100. -/
theorem C6_stop_sequence :
    ([120, 130, 145] : List ℚ).scanl
        (fun s p => updateStop defaultConfig .buy 100 s p) 75 = [75, 75, 100, 120] ∧
    (∀ sl p : ℚ, 100 ≤ sl → 100 ≤ updateStop defaultConfig .buy 100 sl p) := by
  refine ⟨?_, fun sl p h => le_trans h (updateStop_buy_ge _ _ _ _)⟩
  norm_num [List.scanl, updateStop, defaultConfig]

/-- Witness for `C6_stop_sequence` at stop 100, price 145. -/
theorem C6_stop_sequence_witness :
    (100 : ℚ) ≤ 100 ∧ (100 : ℚ) ≤ updateStop defaultConfig .buy 100 100 145 :=
  ⟨le_refl _, C6_stop_sequence.2 100 145 (le_refl _)⟩

/-! ### Session gate theorems -/

/-- Claim C7: `is_in_trading_session` converts `now` and the configured
start/end to a common reference timezone (UTC) and is then true when
`now ≥ start ∨ now < end` if the converted session crosses midnight
(`end < start`), and when `start ≤ now < end` otherwise; for the IST
configuration start 08:00, end 05:00 this means membership exactly on IST
minutes `m ≥ 08:00 ∨ m < 05:00` — in particular true at 23:00 and 04:00
IST and false at 06:00 and 07:59 IST. -/
theorem C7_session_wraparound :
    (∀ s e now : ℕ, is_in_trading_session s e now =
      (if ist_time_to_utc_time e < ist_time_to_utc_time s
       then decide (now ≥ ist_time_to_utc_time s) || decide (now < ist_time_to_utc_time e)
       else decide (ist_time_to_utc_time s ≤ now) && decide (now < ist_time_to_utc_time e))) ∧
    (∀ m : ℕ, m < 1440 →
      (is_in_trading_session 480 300 (ist_time_to_utc_time m) = true ↔ 480 ≤ m ∨ m < 300)) ∧
    is_in_trading_session 480 300 (ist_time_to_utc_time 1380) = true ∧
    is_in_trading_session 480 300 (ist_time_to_utc_time 240) = true ∧
    is_in_trading_session 480 300 (ist_time_to_utc_time 360) = false ∧
    is_in_trading_session 480 300 (ist_time_to_utc_time 479) = false := by
  refine ⟨fun _ _ _ => rfl, ?_, by decide, by decide, by decide, by decide⟩
  intro m hm
  simp only [is_in_trading_session, ist_time_to_utc_time, Bool.and_eq_true, decide_eq_true_eq]
  norm_num
  omega


/-- Witness for `C7_session_wraparound` at IST 23:00 (minute 1380). -/
theorem C7_session_wraparound_witness :
    1380 < 1440 ∧
    (is_in_trading_session 480 300 (ist_time_to_utc_time 1380) = true ↔ 480 ≤ 1380 ∨ 1380 < 300) :=
  ⟨by decide, C7_session_wraparound.2.1 1380 (by decide)⟩

/-- Claim C8: the session-end detector is edge-triggered. Over any run of
per-tick memberships, the value returned at tick `i` is exactly
"membership at the previous tick && not membership now" (the stored flag
starts as the given `wasActive`, `false` at process start): true exactly
once per true→false flip, false on every later out-of-session tick until
the session is re-entered and exited again. -/
theorem C8_session_end_edge (wasActive : Bool) (ms : List Bool) :
    ∀ i, i < ms.length →
      (justEndedSeq wasActive ms).getD i false
        = ((wasActive :: ms).getD i false && !(ms.getD i false)) := by
  induction ms generalizing wasActive with
  | nil => intro i h; simp at h
  | cons m rest ih =>
    intro i h
    cases i with
    | zero => rfl
    | succ n =>
      simp only [justEndedSeq, List.getD_cons_succ]
      exact ih m n (by simpa using h)

/-- Witness for `C8_session_end_edge`: with the run
in, out, out the detector fires at tick 1 (the edge) and is silent at
tick 2. -/
theorem C8_session_end_edge_witness :
    (1 < ([true, false, false] : List Bool).length ∧
      (justEndedSeq false [true, false, false]).getD 1 false
        = ((false :: [true, false, false]).getD 1 false && !([true, false, false].getD 1 false))) ∧
    (2 < ([true, false, false] : List Bool).length ∧
      (justEndedSeq false [true, false, false]).getD 2 false
        = ((false :: [true, false, false]).getD 2 false && !([true, false, false].getD 2 false))) :=
  ⟨⟨by decide, C8_session_end_edge false [true, false, false] 1 (by decide)⟩,
   ⟨by decide, C8_session_end_edge false [true, false, false] 2 (by decide)⟩⟩

/-! ### Driver loop theorems -/

/-- Claim C1, code-bug evidence: whatever the live controller state — in
particular when a pending order or a position exists — an iteration of the
worker loop never calls `check_filled_orders` or `manage_position`, and
runs the signal evaluation exactly on the 60-unit cadence, because the
branch at src/worker.py:43 reads the import-time snapshots
(`BOT_IN_TRADE = False`, `pending_order_id = None`) rather than app.py's
live globals. -/
theorem C1_worker_stale_snapshots (appSt : BotState) (justEnded : Bool) (now lastCheck : ℕ) :
    (workerTick appSt justEnded now lastCheck).ranFillCheck = false ∧
    (workerTick appSt justEnded now lastCheck).ranManage = false ∧
    (workerTick appSt justEnded now lastCheck).ranStrategy = decide (60 ≤ now - lastCheck) := by
  unfold workerTick
  simp only [workerSnapBotActive, workerSnapInTrade, workerSnapPendingId]
  split_ifs with h1 h2 h3 <;> simp_all

/-! ### Fatal-path theorems -/

/-- Under the all-failing network, a fatal `safe_request` on a state whose
pending order is still present recurses through `force_close_position`
without ever reaching `sys.exit(1)`: each fuel level performs one more
flatten attempt. -/
theorem forceCloseAllFail_pending_eq :
    ∀ fuel, forceCloseAllFail fuel stPendingDemo = (fuel, false, none)
  | 0 => rfl
  | fuel + 1 => by
    have ih := forceCloseAllFail_pending_eq fuel
    unfold forceCloseAllFail
    rw [show stPendingDemo.pendingOrderId = some "A" from rfl, ih]
    simp [Nat.add_comm]

/-- Claim C4, code-bug evidence: (1) with a pending order present and the
network still failing during the flatten, the flatten is re-entered once
per available recursion level and `sys.exit(1)` is never executed — not
"exactly one flatten attempt followed by process termination"; (2) when
the flatten itself needs no outbound call (no pending order; the price
fetch fails so no close order is sent), there is exactly one flatten
attempt followed by termination, as the claim describes. -/
theorem C4_fatal_path :
    (∀ fuel, safeRequestAllFail fuel stPendingDemo = (fuel, false)) ∧
    safeRequestAllFail 1 stPositionDemo = (1, true) := by
  constructor
  · intro fuel
    simp [safeRequestAllFail, forceCloseAllFail_pending_eq fuel]
  · rfl

/-! ### Force-close theorems -/

/-- Claim C10, counterexample: in a post-fill state (pending id already
`None`, stale `pending_trigger_price` from the entry order), a forced
close that cannot fetch a price places no order — yet the claim's "clears
all … pending-order fields" fails: the stale trigger price survives. -/
theorem C10_counterexample :
    (force_close_position defaultConfig none stStaleTrigDemo).1.pendingTriggerPrice = some 112 ∧
    (force_close_position defaultConfig none stStaleTrigDemo).2.1 = [] :=
  ⟨rfl, rfl⟩

/-- Claim C10 (amended): when the latest price cannot be fetched,
`force_close_position` places no closing order and still unconditionally
clears the in-trade flag, position side, entry price, stop-loss price and
pending order id; the pending side and stored trigger price are cleared
whenever a pending order id was present (only a stale trigger price from
an earlier fill can survive). The controller thus returns to Idle with no
record that an exchange-side position may remain open. -/
theorem C10_force_close_clears (cfg : Config) (st : BotState) :
    ((force_close_position cfg none st).1.inTrade = false ∧
     (force_close_position cfg none st).1.positionSide = none ∧
     (force_close_position cfg none st).1.entryPrice = none ∧
     (force_close_position cfg none st).1.stopLossPrice = none ∧
     (force_close_position cfg none st).1.pendingOrderId = none ∧
     (force_close_position cfg none st).2.1 = []) ∧
    (st.pendingOrderId ≠ none →
      (force_close_position cfg none st).1.pendingOrderSide = none ∧
      (force_close_position cfg none st).1.pendingTriggerPrice = none) := by
  unfold force_close_position
  cases h : st.pendingOrderId <;> simp [h]

/-- Witness for `C10_force_close_clears` on a state with a pending order. -/
theorem C10_force_close_clears_witness :
    stPendingDemo.pendingOrderId ≠ none ∧
    ((force_close_position defaultConfig none stPendingDemo).1.pendingOrderSide = none ∧
     (force_close_position defaultConfig none stPendingDemo).1.pendingTriggerPrice = none) :=
  ⟨by simp [stPendingDemo, initState],
   (C10_force_close_clears defaultConfig stPendingDemo).2 (by simp [stPendingDemo, initState])⟩

/-! ### Controller transitions and reachable states -/

/-- The events that mutate the controller state: one per transition function
of src/app.py, plus the operator's `BOT_ACTIVE` toggle
(src/app.py:553-595). Environment data — session membership, fetched
candles, the order-list response, the latest price, the placement
response, and the config snapshot of the tick — is carried by the event. -/
inductive BotEvent where
  | strategy (cfg : Config) (inSession : Bool) (candles : Option (List Candle))
      (placeResp : Option String)
  | fills (slDistance : ℚ) (resp : List ExchangeOrder)
  | manage (cfg : Config) (resp : List ExchangeOrder) (inSession : Bool)
      (latestPrice : Option ℚ)
  | forceClose (cfg : Config) (latestPrice : Option ℚ)
  | setActive (b : Bool)

/-- The state after one transition. -/
def botStep (st : BotState) : BotEvent → BotState
  | .strategy cfg s c r => (check_strategy_conditions cfg st s c r).1
  | .fills d resp => check_filled_orders d st resp
  | .manage cfg resp s p => (manage_position cfg st resp s p).1
  | .forceClose cfg p => (force_close_position cfg p st).1
  | .setActive b => { st with botActive := b }

/-- States the controller can reach from process start. -/
inductive Reachable : BotState → Prop
  | init : Reachable initState
  | step {st : BotState} (h : Reachable st) (ev : BotEvent) : Reachable (botStep st ev)

/-- Mutual exclusion: a position (`BOT_IN_TRADE`) excludes a pending order
(present exactly when `pending_order_id` is set). -/
def MutexInv (st : BotState) : Prop := st.inTrade = true → st.pendingOrderId = none

/-- A single order-list entry preserves mutual exclusion: the only branch
that sets `inTrade` also clears `pending_order_id` in the same step. -/
theorem mutexInv_processOrder (d : ℚ) (st : BotState) (od : ExchangeOrder)
    (h : MutexInv st) : MutexInv (processOrder d st od) := by
  unfold MutexInv processOrder at *
  split
  · split <;> simp_all
  · exact h

/-- Folding `processOrder` over the whole order list preserves mutual
exclusion. -/
theorem mutexInv_foldl_processOrder (d : ℚ) :
    ∀ (resp : List ExchangeOrder) (st : BotState), MutexInv st →
      MutexInv (resp.foldl (processOrder d) st)
  | [], _, h => h
  | od :: rest, st, h =>
    mutexInv_foldl_processOrder d rest _ (mutexInv_processOrder d st od h)

/-- `check_filled_orders` preserves mutual exclusion. -/
theorem mutexInv_check_filled_orders (d : ℚ) (st : BotState) (resp : List ExchangeOrder)
    (h : MutexInv st) : MutexInv (check_filled_orders d st resp) := by
  unfold check_filled_orders
  split
  · exact h
  · split
    · exact h
    · exact mutexInv_foldl_processOrder d resp st h

/-- `force_close_position` always leaves `BOT_IN_TRADE` false. -/
theorem force_close_position_inTrade (cfg : Config) (p : Option ℚ) (st : BotState) :
    (force_close_position cfg p st).1.inTrade = false := by
  unfold force_close_position
  cases h : st.pendingOrderId <;> rfl

/-- `force_close_position` preserves (indeed re-establishes) mutual
exclusion. -/
theorem mutexInv_force_close (cfg : Config) (p : Option ℚ) (st : BotState) :
    MutexInv (force_close_position cfg p st).1 := by
  intro h
  rw [force_close_position_inTrade] at h
  exact absurd h (by simp)

/-- `check_strategy_conditions` preserves mutual exclusion: an entry order
is only placed when `BOT_IN_TRADE` is false, and no branch sets
`BOT_IN_TRADE`. -/
theorem mutexInv_check_strategy (cfg : Config) (st : BotState) (s : Bool)
    (cs : Option (List Candle)) (r : Option String) (h : MutexInv st) :
    MutexInv (check_strategy_conditions cfg st s cs r).1 := by
  unfold MutexInv check_strategy_conditions at *
  repeat' split
  all_goals intro hh
  all_goals simp_all

/-- `manage_position` preserves mutual exclusion. -/
theorem mutexInv_manage (cfg : Config) (st : BotState) (resp : List ExchangeOrder)
    (s : Bool) (p : Option ℚ) (h : MutexInv st) :
    MutexInv (manage_position cfg st resp s p).1 := by
  have h1 := mutexInv_check_filled_orders cfg.slDistance st resp h
  unfold manage_position
  dsimp only
  generalize hG : check_filled_orders cfg.slDistance st resp = stm at h1
  split
  · exact h1
  · split
    · exact mutexInv_force_close cfg p _
    · split
      · exact h1
      · split
        · exact h1
        · split
          · split
            · split
              · intro hh; simp_all
              · intro hh; simp_all
            · intro hh; exact h1 hh
          · exact h1

/-- Every reachable controller state satisfies mutual exclusion. -/
theorem mutexInv_reachable : ∀ st : BotState, Reachable st → MutexInv st := by
  intro st hst
  induction hst with
  | init => intro h; rfl
  | step h ev ih =>
    cases ev with
    | strategy cfg s c r => exact mutexInv_check_strategy cfg _ s c r ih
    | fills d resp => exact mutexInv_check_filled_orders d _ resp ih
    | manage cfg resp s p => exact mutexInv_manage cfg _ resp s p ih
    | forceClose cfg p => exact mutexInv_force_close cfg p _
    | setActive b => intro hh; exact ih hh

/-- Claim C2, counterexample: the fill transition does not clear all
pending-order fields — the stored trigger price survives. Starting from a
state with pending order `"A"` (side buy, trigger 105), the report that
`"A"` filled at 106 creates the position and clears the pending id and
side, but `pending_trigger_price` is still 105 after the step. -/
theorem C2_counterexample :
    (check_filled_orders 25 stFillDemo [odFilledDemo]).inTrade = true ∧
    (check_filled_orders 25 stFillDemo [odFilledDemo]).pendingOrderId = none ∧
    (check_filled_orders 25 stFillDemo [odFilledDemo]).pendingOrderSide = none ∧
    (check_filled_orders 25 stFillDemo [odFilledDemo]).pendingTriggerPrice = some 105 :=
  ⟨rfl, rfl, rfl, rfl⟩

/-- Claim C2 (amended): at every reachable instant a `PendingOrder`
(present iff `pending_order_id` is set) and a `Position` (present iff
`BOT_IN_TRADE`) are never simultaneously present, and a fill event
atomically replaces the pending order with the position within a single
transition — the pending id and side are cleared in the same step that
creates the position (the stored trigger price alone is left stale). -/
theorem C2_mutual_exclusion :
    (∀ st : BotState, Reachable st → st.inTrade = true → st.pendingOrderId = none) ∧
    (∀ (d : ℚ) (st : BotState) (od : ExchangeOrder),
      st.pendingOrderId = some od.id → od.status = .filled →
      (processOrder d st od).inTrade = true ∧
      (processOrder d st od).pendingOrderId = none ∧
      (processOrder d st od).pendingOrderSide = none ∧
      (processOrder d st od).entryPrice = some od.pricePerUnit) := by
  constructor
  · exact mutexInv_reachable
  · intro d st od h1 h2
    simp [processOrder, h1, h2]

/-- Witness for `C2_mutual_exclusion`: the invariant at the initial state,
and the fill transition on the concrete pending state. -/
theorem C2_mutual_exclusion_witness :
    (initState.inTrade = true → initState.pendingOrderId = none) ∧
    (stFillDemo.pendingOrderId = some odFilledDemo.id ∧ odFilledDemo.status = .filled) ∧
    ((processOrder 25 stFillDemo odFilledDemo).inTrade = true ∧
     (processOrder 25 stFillDemo odFilledDemo).pendingOrderId = none ∧
     (processOrder 25 stFillDemo odFilledDemo).pendingOrderSide = none ∧
     (processOrder 25 stFillDemo odFilledDemo).entryPrice = some odFilledDemo.pricePerUnit) :=
  ⟨C2_mutual_exclusion.1 initState Reachable.init,
   ⟨rfl, rfl⟩,
   C2_mutual_exclusion.2 25 stFillDemo odFilledDemo rfl rfl⟩

/-! ### Signal evaluator theorems -/

/-- `compute_supertrend` returns one colour per candle in both branches. -/
theorem compute_supertrend_length (cs : List Candle) (p : ℕ) (m : ℚ) :
    (compute_supertrend cs p m).length = cs.length := by
  unfold compute_supertrend
  split <;> simp

/-- A flat candle at 110 with zero volume, used for concrete windows. -/
def flatCandle : Candle := ⟨0, 110, 110, 110, 110, 0⟩

/-- The signal candle `close[-2]` of the demo window: closes at 112. -/
def demoC8 : Candle := ⟨0, 111, 112, 110, 112, 1⟩

/-- The final (in-progress) candle of the demo window; its typical price
296/9·3 = 296/3 is chosen so the 5-candle VWAP is exactly 105. -/
def demoC9 : Candle := ⟨0, 100, 296/3, 296/3, 296/3, 1⟩

/-- A 10-candle window with `close[-3] = 110`, `close[-2] = 112`, VWAP 105
over the last five candles, and a bullish supertrend colour at index −2. -/
def demoWindow : List Candle :=
  [flatCandle, flatCandle, flatCandle, flatCandle, flatCandle,
   flatCandle, flatCandle, flatCandle, demoC8, demoC9]

/-- The true-range list of the demo window. -/
theorem trueRanges_demo :
    trueRanges demoWindow = [0, 0, 0, 0, 0, 0, 0, 2, trueRange demoC8 demoC9] := by
  simp [trueRanges, trueRange, demoWindow, flatCandle, demoC8, demoC9]
  norm_num [max_def, abs]

/-- The ATR feeding the colour at index 8 of the demo window. -/
theorem atr_demo : (compute_atr demoWindow 7).get? 7 = some (some (2/7)) := by
  simp [compute_atr, trueRanges_demo]

/-- The supertrend colour at index −2 of the demo window is bullish. -/
theorem st_demo : (compute_supertrend demoWindow 7 2).get? 8 = some STColor.green := by
  have hl : demoWindow.length = 10 := by simp [demoWindow]
  simp only [compute_supertrend, hl]
  norm_num
  simp only [stColorAt, atr_demo]
  norm_num [demoWindow, demoC8, flatCandle]

/-- `st_demo` restated through `getElem?`. -/
theorem st_demo_g : (compute_supertrend demoWindow 7 2)[8]? = some STColor.green := by
  simpa using st_demo

/-- The VWAP over the final five candles of the demo window is 105. -/
theorem vwap_demo : compute_vwap (lastN 5 demoWindow) = some 105 := by
  norm_num [compute_vwap, lastN, demoWindow, flatCandle, demoC8, demoC9]

/-- The decision rule of src/app.py:326-352, for any window that clears the
data guards: long exactly when both closed closes exceed the VWAP and the
colour at −2 is green (trigger: the high of `close[-2]`), short exactly
when both lie below and the colour is red (trigger: its low), else no
signal. -/
theorem evaluateSignal_rule (cs : List Candle) (v : ℚ) (c2 c3 : Candle) (col2 : STColor)
    (h4 : 4 ≤ cs.length)
    (hv : compute_vwap (lastN 5 cs) = some v) (hnz : v ≠ 0)
    (h2 : cs.get? (cs.length - 2) = some c2)
    (h3 : cs.get? (cs.length - 3) = some c3)
    (hc : (compute_supertrend cs 7 2).get? (cs.length - 2) = some col2) :
    evaluateSignal cs =
      (if c3.close > v ∧ c2.close > v ∧ col2 = .green then .enterLong c2.high
       else if c3.close < v ∧ c2.close < v ∧ col2 = .red then .enterShort c2.low
       else .noSignal) := by
  have hne : (compute_supertrend cs 7 2).isEmpty = false := by
    cases hcs : compute_supertrend cs 7 2 with
    | nil => rw [hcs] at hc; simp at hc
    | cons a rest => rfl
  simp only [evaluateSignal, hv, hne]
  rw [if_neg (by omega)]
  simp only [h2, h3, hc, if_neg hnz, Bool.false_eq_true, if_false]

/-- The demo window produces a long entry triggered at 112. -/
theorem eval_demo : evaluateSignal demoWindow = .enterLong 112 := by
  have hl : demoWindow.length = 10 := by simp [demoWindow]
  have hne : (compute_supertrend demoWindow 7 2).isEmpty = false := by
    cases hcs : compute_supertrend demoWindow 7 2 with
    | nil =>
      have := compute_supertrend_length demoWindow 7 2
      rw [hcs, hl] at this
      simp at this
    | cons a rest => rfl
  have h8 : demoWindow[8]? = some demoC8 := by simp [demoWindow]
  have h7 : demoWindow[7]? = some flatCandle := by simp [demoWindow]
  simp only [evaluateSignal, hl, vwap_demo]
  norm_num [hne, h8, h7, st_demo_g, demoC8, flatCandle]

/-- Claim C9: the signal evaluator enters long exactly when both of the
last two closed closes lie above the window VWAP and the colour at −2 is
bullish (trigger: the high of `close[-2]`), enters short exactly when both
lie below and the colour is bearish (trigger: its low), and otherwise
yields no signal; on the concrete window with `close[-3] = 110`,
`close[-2] = 112`, VWAP 105 and a bullish colour at index −2, the result
is a long entry with trigger = high of `close[-2]` = 112. -/
theorem C9_signal_determinism :
    (∀ (cs : List Candle) (v : ℚ) (c2 c3 : Candle) (col2 : STColor),
      4 ≤ cs.length →
      compute_vwap (lastN 5 cs) = some v → v ≠ 0 →
      cs.get? (cs.length - 2) = some c2 →
      cs.get? (cs.length - 3) = some c3 →
      (compute_supertrend cs 7 2).get? (cs.length - 2) = some col2 →
      evaluateSignal cs =
        (if c3.close > v ∧ c2.close > v ∧ col2 = .green then .enterLong c2.high
         else if c3.close < v ∧ c2.close < v ∧ col2 = .red then .enterShort c2.low
         else .noSignal)) ∧
    (demoWindow.get? 7).map Candle.close = some 110 ∧
    (demoWindow.get? 8).map Candle.close = some 112 ∧
    compute_vwap (lastN 5 demoWindow) = some 105 ∧
    (compute_supertrend demoWindow 7 2).get? 8 = some STColor.green ∧
    (demoWindow.get? 8).map Candle.high = some 112 ∧
    evaluateSignal demoWindow = .enterLong 112 := by
  refine ⟨evaluateSignal_rule, ?_, ?_, vwap_demo, st_demo, ?_, eval_demo⟩
  · simp [demoWindow, flatCandle]
  · simp [demoWindow, demoC8]
  · simp [demoWindow, demoC8]

/-- Witness for `C9_signal_determinism` on the demo window. -/
theorem C9_signal_determinism_witness :
    (4 ≤ demoWindow.length ∧
     compute_vwap (lastN 5 demoWindow) = some 105 ∧ (105 : ℚ) ≠ 0 ∧
     demoWindow.get? (demoWindow.length - 2) = some demoC8 ∧
     demoWindow.get? (demoWindow.length - 3) = some flatCandle ∧
     (compute_supertrend demoWindow 7 2).get? (demoWindow.length - 2) = some STColor.green) ∧
    evaluateSignal demoWindow =
      (if flatCandle.close > 105 ∧ demoC8.close > 105 ∧ STColor.green = STColor.green
       then SignalDecision.enterLong demoC8.high
       else if flatCandle.close < 105 ∧ demoC8.close < 105 ∧ STColor.green = STColor.red
       then SignalDecision.enterShort demoC8.low
       else SignalDecision.noSignal) :=
  ⟨⟨by simp [demoWindow], vwap_demo, by norm_num, by simp [demoWindow], by simp [demoWindow],
    by rw [show demoWindow.length - 2 = 8 from by simp [demoWindow]]; exact st_demo⟩,
   C9_signal_determinism.1 demoWindow 105 demoC8 flatCandle .green
     (by simp [demoWindow]) vwap_demo (by norm_num)
     (by simp [demoWindow]) (by simp [demoWindow])
     (by rw [show demoWindow.length - 2 = 8 from by simp [demoWindow]]; exact st_demo)⟩

/-! ### Dependence of the signal on the final (possibly open) candle -/

/-- A flat low candle (close 10, low 9) with zero volume. -/
def flatLowCandle : Candle := ⟨0, 10, 10, 9, 10, 0⟩

/-- Four closed candles shared by the counterexample windows. -/
def windowBase : List Candle :=
  [flatLowCandle, flatLowCandle, flatLowCandle, flatLowCandle]

/-- A final candle whose typical price 12 pulls the VWAP above the closes. -/
def finalUpCandle : Candle := ⟨0, 12, 12, 12, 12, 1⟩

/-- A final candle whose typical price 8 pulls the VWAP below the closes. -/
def finalDownCandle : Candle := ⟨0, 8, 8, 8, 8, 1⟩

/-- A final candle with the same typical price and volume as
`finalUpCandle` but a different high/low spread. -/
def finalUpWideCandle : Candle := ⟨0, 12, 13, 11, 12, 1⟩

def windowUp : List Candle := windowBase ++ [finalUpCandle]

def windowDown : List Candle := windowBase ++ [finalDownCandle]

/-- With the VWAP pulled up by the in-progress candle, the window yields a
short entry triggered at the low of `close[-2]`. -/
theorem eval_windowUp : evaluateSignal windowUp = .enterShort 9 := by
  have hl : windowUp.length = 5 := by simp [windowUp, windowBase]
  have hv : compute_vwap (lastN 5 windowUp) = some 12 := by
    norm_num [compute_vwap, lastN, windowUp, windowBase, flatLowCandle, finalUpCandle]
  have hst : compute_supertrend windowUp 7 2 = List.replicate 5 STColor.red := by
    simp [compute_supertrend, hl]
  have h3 : windowUp[3]? = some flatLowCandle := by simp [windowUp, windowBase]
  have h2 : windowUp[2]? = some flatLowCandle := by simp [windowUp, windowBase]
  simp only [evaluateSignal, hl, hv, hst]
  norm_num [h3, h2, flatLowCandle]

/-- With the VWAP pulled down by the in-progress candle, the same closed
candles yield no signal. -/
theorem eval_windowDown : evaluateSignal windowDown = .noSignal := by
  have hl : windowDown.length = 5 := by simp [windowDown, windowBase]
  have hv : compute_vwap (lastN 5 windowDown) = some 8 := by
    norm_num [compute_vwap, lastN, windowDown, windowBase, flatLowCandle, finalDownCandle]
  have hst : compute_supertrend windowDown 7 2 = List.replicate 5 STColor.red := by
    simp [compute_supertrend, hl]
  have h3 : windowDown[3]? = some flatLowCandle := by simp [windowDown, windowBase]
  have h2 : windowDown[2]? = some flatLowCandle := by simp [windowDown, windowBase]
  simp only [evaluateSignal, hl, hv, hst]
  norm_num [h3, h2, flatLowCandle]
  intro h
  cases h

/-- Claim C5, counterexample: two candle windows that differ only in their
final (in-progress) element produce different signal decisions, because
the VWAP of src/app.py:320 is computed over `candles[-5:]`, which includes
the final candle. -/
theorem C5_counterexample :
    windowUp.dropLast = windowDown.dropLast ∧
    windowUp ≠ windowDown ∧
    evaluateSignal windowUp = .enterShort 9 ∧
    evaluateSignal windowDown = .noSignal := by
  refine ⟨by simp [windowUp, windowDown, windowBase], ?_, eval_windowUp, eval_windowDown⟩
  simp [windowUp, windowDown, windowBase, finalUpCandle, finalDownCandle]

/-- Appending one candle appends at most one true range, leaving the
existing entries unchanged. -/
theorem trueRanges_append_single :
    ∀ (l : List Candle) (c : Candle),
      trueRanges (l ++ [c]) = trueRanges l ++ (l.getLast?.map (fun a => trueRange a c)).toList
  | [], _ => rfl
  | [_], _ => rfl
  | a :: b :: rest, c => by
    have ih := trueRanges_append_single (b :: rest) c
    show trueRange a b :: trueRanges ((b :: rest) ++ [c]) = _
    rw [ih]
    rfl

theorem trueRanges_length : ∀ l : List Candle, (trueRanges l).length = l.length - 1
  | [] => rfl
  | [_] => rfl
  | a :: b :: rest => by
    have ih := trueRanges_length (b :: rest)
    simp [trueRanges, ih]

/-- ATR entries that only involve true ranges of the closed prefix are
unchanged by the final candle. -/
theorem compute_atr_append_get? (l : List Candle) (c : Candle) (k : ℕ)
    (hk : k + 2 ≤ l.length) :
    (compute_atr (l ++ [c]) 7).get? k = (compute_atr l 7).get? k := by
  have hL : (trueRanges l).length = l.length - 1 := trueRanges_length l
  have hLU : (trueRanges (l ++ [c])).length = l.length := by
    rw [trueRanges_length]
    simp
  unfold compute_atr
  rw [List.get?_map, List.get?_map,
      List.get?_range (by omega), List.get?_range (by omega)]
  simp only [Option.map_some']
  by_cases h7 : k < 7
  · simp [h7]
  · have hdt : ((trueRanges (l ++ [c])).drop (k - 7 + 1)).take 7
        = ((trueRanges l).drop (k - 7 + 1)).take 7 := by
      rw [trueRanges_append_single,
          List.drop_append_of_le_length (by omega),
          List.take_append_of_le_length (by rw [List.length_drop, hL]; omega)]
    rw [hdt]

/-- The supertrend colour at an index reads only candles up to that index
and ATR entries strictly below it. -/
theorem stColorAt_agree (u u' : List Candle) (atrs atrs' : List (Option ℚ)) (m : ℚ) :
    ∀ j, (∀ k, k ≤ j → u.get? k = u'.get? k) →
      (∀ k, k < j → atrs.get? k = atrs'.get? k) →
      stColorAt u atrs m j = stColorAt u' atrs' m j
  | 0, _, _ => rfl
  | j + 1, hc, ha => by
    have ih := stColorAt_agree u u' atrs atrs' m j
      (fun k hk => hc k (Nat.le_succ_of_le hk))
      (fun k hk => ha k (Nat.lt_succ_of_lt hk))
    have hA := ha j (Nat.lt_succ_self j)
    have hC := hc (j + 1) (Nat.le_refl _)
    unfold stColorAt
    rw [hA, hC]
    cases atrs'.get? j with
    | none => rfl
    | some o =>
      cases o with
      | none => rfl
      | some a =>
        cases u'.get? (j + 1) with
        | none => rfl
        | some cd =>
          dsimp only
          split_ifs <;> first | rfl | exact ih

/-- Supertrend colours of the closed prefix do not depend on the final
candle. -/
theorem compute_supertrend_append_get? (l : List Candle) (c c' : Candle) (j : ℕ)
    (hj : j + 1 ≤ l.length) :
    (compute_supertrend (l ++ [c]) 7 2).get? j
      = (compute_supertrend (l ++ [c']) 7 2).get? j := by
  unfold compute_supertrend
  have hlen : (l ++ [c]).length = l.length + 1 := by simp
  have hlen' : (l ++ [c']).length = l.length + 1 := by simp
  rw [hlen, hlen']
  by_cases h8 : l.length + 1 < 7 + 1
  · rw [if_pos h8, if_pos h8]
  · rw [if_neg h8, if_neg h8, List.get?_map, List.get?_map, List.get?_range (by omega)]
    simp only [Option.map_some']
    congr 1
    exact stColorAt_agree _ _ _ _ 2 j
      (fun k hk => by rw [List.get?_append (by omega), List.get?_append (by omega)])
      (fun k hk => by
        rw [compute_atr_append_get? l c k (by omega), compute_atr_append_get? l c' k (by omega)])

/-- Claim C5 (amended): the closes `close[-2]`, `close[-3]` and the trend
colour at index −2 that feed the decision come only from closed candles,
but the VWAP is computed over the last five candles including the final,
possibly still-open one; consequently the signal decision is identical for
two windows that differ only in their final element exactly when the two
windows' five-candle VWAPs coincide. -/
theorem C5_signal_vwap_dependency (l : List Candle) (c c' : Candle)
    (hvw : compute_vwap (lastN 5 (l ++ [c])) = compute_vwap (lastN 5 (l ++ [c']))) :
    evaluateSignal (l ++ [c]) = evaluateSignal (l ++ [c']) := by
  have hlen : (l ++ [c]).length = l.length + 1 := by simp
  have hlen' : (l ++ [c']).length = l.length + 1 := by simp
  unfold evaluateSignal
  rw [hlen, hlen', hvw]
  by_cases h4 : l.length + 1 < 4
  · rw [if_pos h4, if_pos h4]
  · rw [if_neg h4, if_neg h4]
    cases hV : compute_vwap (lastN 5 (l ++ [c'])) with
    | none => rfl
    | some v =>
      dsimp only
      by_cases hz : v = 0
      · rw [if_pos hz, if_pos hz]
      · rw [if_neg hz, if_neg hz]
        have he : (compute_supertrend (l ++ [c]) 7 2).isEmpty = false := by
          cases hcs : compute_supertrend (l ++ [c]) 7 2 with
          | nil =>
            have hL := compute_supertrend_length (l ++ [c]) 7 2
            rw [hcs, hlen] at hL
            simp at hL
          | cons a rest => rfl
        have he' : (compute_supertrend (l ++ [c']) 7 2).isEmpty = false := by
          cases hcs : compute_supertrend (l ++ [c']) 7 2 with
          | nil =>
            have hL := compute_supertrend_length (l ++ [c']) 7 2
            rw [hcs, hlen'] at hL
            simp at hL
          | cons a rest => rfl
        rw [he, he']
        simp only [Bool.false_eq_true, if_false]
        have g2 : (l ++ [c]).get? (l.length + 1 - 2)
            = (l ++ [c']).get? (l.length + 1 - 2) := by
          rw [List.get?_append (by omega), List.get?_append (by omega)]
        have g3 : (l ++ [c]).get? (l.length + 1 - 3)
            = (l ++ [c']).get? (l.length + 1 - 3) := by
          rw [List.get?_append (by omega), List.get?_append (by omega)]
        have gst := compute_supertrend_append_get? l c c' (l.length + 1 - 2) (by omega)
        rw [g2, g3, gst]

/-- Witness for `C5_signal_vwap_dependency`: two distinct final candles
with the same typical price and volume give the same VWAP, hence the same
decision. -/
theorem C5_signal_vwap_dependency_witness :
    compute_vwap (lastN 5 (windowBase ++ [finalUpCandle]))
      = compute_vwap (lastN 5 (windowBase ++ [finalUpWideCandle])) ∧
    evaluateSignal (windowBase ++ [finalUpCandle])
      = evaluateSignal (windowBase ++ [finalUpWideCandle]) := by
  have hvw : compute_vwap (lastN 5 (windowBase ++ [finalUpCandle]))
      = compute_vwap (lastN 5 (windowBase ++ [finalUpWideCandle])) := by
    norm_num [compute_vwap, lastN, windowBase, flatLowCandle, finalUpCandle, finalUpWideCandle]
  exact ⟨hvw, C5_signal_vwap_dependency windowBase finalUpCandle finalUpWideCandle hvw⟩

end Bot
